import Mathlib

/-!
# Verification of the sandboxed C/C++ compile/run/analyze tool (`src/compiler.py`)

Shallow embedding of the session/command-orchestration core of the program:
the compilation context, the docker command builders for compile / run /
valgrind, the toolchain selection by file extension, and the interactive-menu
state transitions.  Paths follow POSIX `os.path` semantics (`abspath`,
`normpath`, `dirname`, `basename`, `join`), with the process working
directory passed explicitly as `cwd` (the program never calls `os.chdir`, so
`cwd` is constant for the process lifetime).  The external world — the file
system and the result of each spawned docker process — is modelled by an
explicit `FS` record and a `sandbox : List String → ExecutionResult` oracle.
-/

namespace Compiler

/-- Configuration constant `DOCKER_IMAGE` from the source. -/
def DOCKER_IMAGE : String := "yaniv242/hacenv"

/-- Configuration constant `WORKDIR_IN_CONTAINER` from the source. -/
def WORKDIR_IN_CONTAINER : String := "/workspace"

/-- Configuration constant `EXECUTABLE_NAME` from the source. -/
def EXECUTABLE_NAME : String := "program"

/-- Python `str.endswith`, modelled on the character list of the string. -/
def endswith (s suffix : String) : Bool :=
  suffix.data.isSuffixOf s.data

/-- `posixpath.isabs`: a path is absolute iff it starts with a slash. -/
def isabs (p : String) : Bool := p.startsWith "/"

/-- `posixpath.join` for two components: if the second is absolute it wins;
otherwise it is appended, inserting a separator unless the first part is
empty or already ends in one. -/
def path_join (a b : String) : String :=
  if isabs b then b
  else if a = "" || a.endsWith "/" then a ++ b
  else a ++ "/" ++ b

/-- One step of `posixpath.normpath`'s component loop: skip empty and `.`
components, fold `..` into the accumulated list where possible.  The
accumulator holds the processed components in reverse order. -/
def normpath_step (initial_slashes : Nat) (acc : List String) (comp : String) :
    List String :=
  if comp = "" || comp = "." then acc
  else if comp ≠ ".." || (initial_slashes = 0 && acc = []) ||
      acc.head? = some ".." then
    comp :: acc
  else
    match acc with
    | [] => []
    | _ :: t => t

/-- `posixpath.normpath`: collapse repeated separators and resolve `.` and
`..` components lexically.  One or two leading slashes are preserved (two
exactly when the path starts with `//` but not `///`, per POSIX). -/
def normpath (path : String) : String :=
  if path = "" then "."
  else
    let initial_slashes : Nat :=
      if path.startsWith "//" && !path.startsWith "///" then 2
      else if path.startsWith "/" then 1
      else 0
    let comps := path.splitOn "/"
    let new_comps := (comps.foldl (normpath_step initial_slashes) []).reverse
    let joined :=
      String.mk (List.replicate initial_slashes '/') ++
        String.intercalate "/" new_comps
    if joined = "" then "." else joined

/-- `posixpath.abspath`, with the process working directory `cwd` explicit:
a relative path is joined onto `cwd` first, then normalized. -/
def abspath (cwd path : String) : String :=
  if isabs path then normpath path
  else normpath (path_join cwd path)

/-- `posixpath.dirname`: everything before the final slash, with trailing
slashes stripped from the head unless the head is entirely slashes. -/
def dirname (p : String) : String :=
  let cs := p.data
  let tailLen := (cs.reverse.takeWhile (fun c => c ≠ '/')).length
  let head := cs.take (cs.length - tailLen)
  let head :=
    if head ≠ [] && !(head.all (fun c => c = '/')) then
      (head.reverse.dropWhile (fun c => c = '/')).reverse
    else head
  String.mk head

/-- `posixpath.basename`: everything after the final slash. -/
def basename (p : String) : String :=
  String.mk ((p.data.reverse.takeWhile (fun c => c ≠ '/')).reverse)

/-- Captured outcome of one spawned process (`subprocess.run` result):
stdout text, stderr text, integer exit code. -/
structure ExecutionResult where
  stdout : String
  stderr : String
  returncode : Int
deriving Repr, DecidableEq

/-- The mutable `current_context` dictionary of the source: working
directory, last source file, last executable path, last-used compiler. -/
structure Context where
  source_dir : String
  source_file : Option String
  executable_path : Option String
  compiler : String
deriving Repr, DecidableEq

/-- The initial `current_context` value: the process start directory, no
source file, no executable, `gcc` as default compiler. -/
def initial_context (cwd : String) : Context :=
  { source_dir := cwd
    source_file := none
    executable_path := none
    compiler := "gcc" }

/-- The file-system facts the program consults: `os.path.isfile`,
`os.path.isdir`, and `os.listdir` (`none` models `FileNotFoundError` for a
directory that does not exist). -/
structure FS where
  isfile : String → Bool
  isdir : String → Bool
  listdir : String → Option (List String)

/-- `get_c_files(directory)`: all entries of the directory whose names end
in `.c` or `.cpp`; a missing directory is reported and yields `[]`. -/
def get_c_files (fs : FS) (directory : String) : List String :=
  match fs.listdir directory with
  | some entries =>
    entries.filter (fun file => endswith file ".c" || endswith file ".cpp")
  | none => []

/-- What one call to `compile_program` produces: the constructed docker
argument vector, the captured process result, and the updated context. -/
structure CompileOutcome where
  docker_cmd : List String
  result : ExecutionResult
  ctx : Context
deriving Repr

/-- `compile_program(source_file, compile_flags, compiler)`: resolve the
source to an absolute path, split into directory and filename, build the
docker invocation `docker run --rm -v dir:WORKDIR -w WORKDIR image compiler
flags -o EXECUTABLE_NAME filename` (the flags string is one argv element),
run it, then unconditionally update the context — `source_dir`,
`source_file`, `executable_path = join(source_dir, EXECUTABLE_NAME)`,
`compiler` — regardless of the invocation's exit code. -/
def compile_program (cwd : String) (ctx : Context)
    (sandbox : List String → ExecutionResult)
    (source_file compile_flags compiler : String) : CompileOutcome :=
  let absolute_path := abspath cwd source_file
  let source_dir := dirname absolute_path
  let source_filename := basename absolute_path
  let docker_image := DOCKER_IMAGE
  let docker_cmd :=
    ["docker", "run", "--rm",
     "-v", source_dir ++ ":" ++ WORKDIR_IN_CONTAINER,
     "-w", WORKDIR_IN_CONTAINER,
     docker_image,
     compiler, compile_flags, "-o", EXECUTABLE_NAME, source_filename]
  let result := sandbox docker_cmd
  { docker_cmd := docker_cmd
    result := result
    ctx := { ctx with
      source_dir := source_dir
      source_file := some source_file
      executable_path := some (path_join source_dir EXECUTABLE_NAME)
      compiler := compiler } }

/-- What one call to `run_program` or `run_valgrind` produces: the
constructed docker argument vector and the captured process result. -/
structure RunOutcome where
  docker_cmd : List String
  result : ExecutionResult
deriving Repr

/-- `run_program(program_args, source_dir)`: run `./EXECUTABLE_NAME` with
the user's arguments appended verbatim, mounting `source_dir`. -/
def run_program (sandbox : List String → ExecutionResult)
    (program_args : List String) (source_dir : String) : RunOutcome :=
  let args := ("./" ++ EXECUTABLE_NAME) :: program_args
  let docker_cmd :=
    ["docker", "run", "--rm",
     "-v", source_dir ++ ":" ++ WORKDIR_IN_CONTAINER,
     "-w", WORKDIR_IN_CONTAINER,
     DOCKER_IMAGE] ++ args
  { docker_cmd := docker_cmd, result := sandbox docker_cmd }

/-- `run_valgrind(program_args, source_dir)`: run the executable under
`valgrind --leak-check=full --error-exitcode=1`, mounting `source_dir`,
with the user's arguments appended after the executable name. -/
def run_valgrind (sandbox : List String → ExecutionResult)
    (program_args : List String) (source_dir : String) : RunOutcome :=
  let docker_cmd :=
    ["docker", "run", "--rm",
     "-v", source_dir ++ ":" ++ WORKDIR_IN_CONTAINER,
     "-w", WORKDIR_IN_CONTAINER,
     DOCKER_IMAGE,
     "valgrind", "--leak-check=full", "--error-exitcode=1",
     "./" ++ EXECUTABLE_NAME] ++ program_args
  { docker_cmd := docker_cmd, result := sandbox docker_cmd }

/-- The toolchain selection of menu option 2: `.c` selects `gcc`, `.cpp`
selects `g++`, anything else is rejected (`none`). -/
def select_compiler (selected_file : String) : Option String :=
  if endswith selected_file ".c" then some "gcc"
  else if endswith selected_file ".cpp" then some "g++"
  else none

/-- `select_source_file`: list the `.c`/`.cpp` files of the context's
directory and return the chosen one joined onto that directory; `none` when
there is nothing to select (the user's 1-based menu choice is modelled as a
0-based index into the list). -/
def select_source_file (fs : FS) (ctx : Context) (idx : Nat) :
    Option String :=
  let c_files := get_c_files fs ctx.source_dir
  match c_files.get? idx with
  | none => none
  | some file => some (path_join ctx.source_dir file)

/-- The guard of menu options 3 and 4:
`not current_context['executable_path'] or not os.path.isfile(...)`.
Python truthiness makes both `None` and the empty string falsy. -/
def exec_guard_fails (fs : FS) (ctx : Context) : Bool :=
  match ctx.executable_path with
  | none => true
  | some p => p = "" || !(fs.isfile p)

/-- One iteration of the interactive menu, by chosen option: list files,
compile (with a selected file index and a flags string), run, valgrind, or
change directory. -/
inductive MenuAction where
  | listFiles : MenuAction
  | compileChoice (idx : Nat) (compile_flags : String) : MenuAction
  | runChoice (program_args : List String) : MenuAction
  | valgrindChoice (valgrind_args : List String) : MenuAction
  | changeDir (new_directory : String) : MenuAction

/-- One step of `interactive_menu`: the new context together with the list
of docker invocations issued during the step (empty when the step
short-circuits).  Mirrors the option dispatch of the source: option 2
selects a file, picks the compiler by extension (rejecting other
extensions), and compiles; options 3 and 4 first check that the executable
path is set and exists on disk; option 5 changes the directory only when it
exists, resetting `source_file` and `executable_path`. -/
def menu_step (fs : FS) (cwd : String)
    (sandbox : List String → ExecutionResult) (act : MenuAction)
    (ctx : Context) : Context × List (List String) :=
  match act with
  | .listFiles => (ctx, [])
  | .compileChoice idx compile_flags =>
    match select_source_file fs ctx idx with
    | none => (ctx, [])
    | some selected_file =>
      match select_compiler selected_file with
      | none => (ctx, [])
      | some compiler =>
        let out := compile_program cwd ctx sandbox selected_file
          compile_flags compiler
        (out.ctx, [out.docker_cmd])
  | .runChoice program_args =>
    if exec_guard_fails fs ctx then (ctx, [])
    else
      let out := run_program sandbox program_args ctx.source_dir
      (ctx, [out.docker_cmd])
  | .valgrindChoice valgrind_args =>
    if exec_guard_fails fs ctx then (ctx, [])
    else
      let out := run_valgrind sandbox valgrind_args ctx.source_dir
      (ctx, [out.docker_cmd])
  | .changeDir new_directory =>
    if !(fs.isdir new_directory) then (ctx, [])
    else
      ({ ctx with
          source_dir := abspath cwd new_directory
          source_file := none
          executable_path := none }, [])

/-- The contexts reachable from the initial context through menu steps; the
file system and the sandbox results may differ from step to step. -/
inductive Reachable (cwd : String) : Context → Prop where
  | init : Reachable cwd (initial_context cwd)
  | step : ∀ (fs : FS) (sandbox : List String → ExecutionResult)
      (act : MenuAction) (ctx : Context), Reachable cwd ctx →
      Reachable cwd (menu_step fs cwd sandbox act ctx).1

/-- A concrete file system used in closed witness statements. -/
def fs0 : FS :=
  { isfile := fun _ => true
    isdir := fun _ => true
    listdir := fun _ => some ["a.c"] }

/-- A concrete sandbox oracle used in closed witness statements. -/
def sb0 : List String → ExecutionResult :=
  fun _ => { stdout := "", stderr := "", returncode := 0 }

/-- A concrete file system on which every lookup fails, used in closed
witness statements. -/
def fsNoDir : FS :=
  { isfile := fun _ => false
    isdir := fun _ => false
    listdir := fun _ => none }

/-- A name ending in `.cpp` does not end in `.c`: the last character of a
`.cpp` name is `p`, of a `.c` name is `c`. -/
theorem endswith_cpp_imp_not_c (f : String)
    (h : endswith f ".cpp" = true) : endswith f ".c" = false := by
  unfold endswith at *
  rw [List.isSuffixOf_iff_suffix] at h
  by_contra hc
  rw [Bool.not_eq_false, List.isSuffixOf_iff_suffix] at hc
  obtain ⟨t, ht⟩ := h
  obtain ⟨s, hs⟩ := hc
  have h1 : f.data.getLast? = some 'p' := by
    rw [← ht, List.getLast?_append]; rfl
  have h2 : f.data.getLast? = some 'c' := by
    rw [← hs, List.getLast?_append]; rfl
  rw [h1] at h2
  cases h2

/-- Every menu step leaves the context unchanged, or sets it via a compile
(all four fields committed together, the executable path computed from the
new working directory), or resets it via a directory change. -/
theorem menu_step_ctx_cases (fs : FS) (cwd : String)
    (sandbox : List String → ExecutionResult) (act : MenuAction)
    (ctx : Context) :
    (menu_step fs cwd sandbox act ctx).1 = ctx ∨
    (∃ sd sf cp, (menu_step fs cwd sandbox act ctx).1 =
      { source_dir := sd, source_file := some sf
        executable_path := some (path_join sd EXECUTABLE_NAME)
        compiler := cp }) ∨
    (∃ sd, (menu_step fs cwd sandbox act ctx).1 =
      { source_dir := sd, source_file := none
        executable_path := none, compiler := ctx.compiler }) := by
  cases act with
  | listFiles => exact Or.inl rfl
  | compileChoice idx compile_flags =>
    dsimp only [menu_step]
    cases hsel : select_source_file fs ctx idx with
    | none => exact Or.inl rfl
    | some selected_file =>
      dsimp only
      cases hc : select_compiler selected_file with
      | none => exact Or.inl rfl
      | some compiler => exact Or.inr (Or.inl ⟨_, _, _, rfl⟩)
  | runChoice program_args =>
    dsimp only [menu_step]
    split
    · exact Or.inl rfl
    · exact Or.inl rfl
  | valgrindChoice valgrind_args =>
    dsimp only [menu_step]
    split
    · exact Or.inl rfl
    · exact Or.inl rfl
  | changeDir new_directory =>
    dsimp only [menu_step]
    split
    · exact Or.inl rfl
    · exact Or.inr (Or.inr ⟨_, rfl⟩)

/-- C1: every `compile_program` call unconditionally updates the context's
`source_file`, `compiler` (toolchain) and `executable_path` — the latter to
the source file's directory joined with the fixed executable name — and the
updated context is the same for every sandbox oracle, i.e. for zero and
non-zero exit codes alike. -/
theorem C1_compile_updates_context
    (cwd source_file compile_flags compiler : String) (ctx : Context)
    (sandbox sandbox' : List String → ExecutionResult) :
    ((compile_program cwd ctx sandbox source_file compile_flags
        compiler).ctx.source_file = some source_file) ∧
    ((compile_program cwd ctx sandbox source_file compile_flags
        compiler).ctx.compiler = compiler) ∧
    ((compile_program cwd ctx sandbox source_file compile_flags
        compiler).ctx.executable_path
      = some (path_join (dirname (abspath cwd source_file))
          EXECUTABLE_NAME)) ∧
    ((compile_program cwd ctx sandbox source_file compile_flags
        compiler).ctx
      = (compile_program cwd ctx sandbox' source_file compile_flags
          compiler).ctx) :=
  ⟨rfl, rfl, rfl, rfl⟩

/-- C2: toolchain selection is a deterministic function of the file-name
extension — `.c` selects `gcc`, `.cpp` selects `g++`, and any other
extension is rejected, in which case the menu's compile option issues no
invocation and leaves the context unchanged. -/
theorem C2_toolchain_by_extension (f : String) :
    (endswith f ".c" = true → select_compiler f = some "gcc") ∧
    (endswith f ".cpp" = true → select_compiler f = some "g++") ∧
    (endswith f ".c" = false → endswith f ".cpp" = false →
      select_compiler f = none ∧
      ∀ (fs : FS) (cwd : String)
        (sandbox : List String → ExecutionResult) (ctx : Context)
        (idx : Nat) (compile_flags : String),
        select_source_file fs ctx idx = some f →
        menu_step fs cwd sandbox (MenuAction.compileChoice idx compile_flags)
          ctx = (ctx, [])) := by
  refine ⟨fun h => ?_, fun h => ?_, fun h1 h2 => ⟨?_, ?_⟩⟩
  · simp [select_compiler, h]
  · have hc := endswith_cpp_imp_not_c f h
    simp [select_compiler, hc, h]
  · simp [select_compiler, h1, h2]
  · intro fs cwd sandbox ctx idx compile_flags hsel
    simp [menu_step, hsel, select_compiler, h1, h2]

/-- Witness for C2 at the concrete names `a.c`, `b.cpp` and `c.txt`. -/
theorem C2_toolchain_witness :
    select_compiler "a.c" = some "gcc" ∧
    select_compiler "b.cpp" = some "g++" ∧
    select_compiler "c.txt" = none :=
  ⟨(C2_toolchain_by_extension "a.c").1 (by decide),
   (C2_toolchain_by_extension "b.cpp").2.1 (by decide),
   ((C2_toolchain_by_extension "c.txt").2.2 (by decide) (by decide)).1⟩

/-- C3: the flags string occupies exactly one argv slot of the compile
invocation — position 9 — and is never tokenized, so the two-flag string
`-Wall -O2` yields the same argv length as the single flag `-Wall`. -/
theorem C3_flags_single_token (cwd f comp : String) (ctx : Context)
    (sandbox : List String → ExecutionResult) :
    ((compile_program cwd ctx sandbox f "-Wall -O2" comp).docker_cmd.get? 9
      = some "-Wall -O2") ∧
    ((compile_program cwd ctx sandbox f "-Wall -O2" comp).docker_cmd.length
      = (compile_program cwd ctx sandbox f "-Wall" comp).docker_cmd.length) ∧
    (∀ compile_flags : String,
      (compile_program cwd ctx sandbox f compile_flags comp).docker_cmd.get? 9
        = some compile_flags) :=
  ⟨rfl, rfl, fun _ => rfl⟩

/-- C4: when the context's executable path is unset, or set but names a
file that does not exist on disk, both the run and the valgrind menu
options short-circuit: no docker invocation is constructed and the context
is unchanged. -/
theorem C4_guard_short_circuits (fs : FS) (cwd : String)
    (sandbox : List String → ExecutionResult) (ctx : Context)
    (program_args valgrind_args : List String)
    (h : ctx.executable_path = none ∨
      ∃ p, ctx.executable_path = some p ∧ fs.isfile p = false) :
    menu_step fs cwd sandbox (MenuAction.runChoice program_args) ctx
      = (ctx, []) ∧
    menu_step fs cwd sandbox (MenuAction.valgrindChoice valgrind_args) ctx
      = (ctx, []) := by
  have hg : exec_guard_fails fs ctx = true := by
    rcases h with h | ⟨p, hp, hf⟩
    · simp [exec_guard_fails, h]
    · simp [exec_guard_fails, hp, hf]
  constructor
  · simp [menu_step, hg]
  · simp [menu_step, hg]

/-- Witness for C4 at the initial context, whose executable path is
unset. -/
theorem C4_guard_witness :
    menu_step fs0 "/home" sb0 (MenuAction.runChoice [])
      (initial_context "/home") = (initial_context "/home", []) ∧
    menu_step fs0 "/home" sb0 (MenuAction.valgrindChoice [])
      (initial_context "/home") = (initial_context "/home", []) :=
  C4_guard_short_circuits fs0 "/home" sb0 (initial_context "/home") [] []
    (Or.inl rfl)

/-- C5: a compile sets the context's working directory to
`dirname(abspath(f))`, and a subsequent run built from that context field
mounts exactly the same host directory as the compile invocation did. -/
theorem C5_compile_then_run_same_mount (cwd f compile_flags comp : String)
    (ctx : Context) (sandbox sandbox' : List String → ExecutionResult) :
    ((compile_program cwd ctx sandbox f compile_flags comp).ctx.source_dir
      = dirname (abspath cwd f)) ∧
    ((run_program sandbox' []
        (compile_program cwd ctx sandbox f compile_flags comp).ctx.source_dir
      ).docker_cmd.get? 4
      = (compile_program cwd ctx sandbox f compile_flags comp).docker_cmd.get? 4) ∧
    ((compile_program cwd ctx sandbox f compile_flags comp).docker_cmd.get? 4
      = some (dirname (abspath cwd f) ++ ":" ++ WORKDIR_IN_CONTAINER)) :=
  ⟨rfl, rfl, rfl⟩

/-- C6: in every reachable context, the executable path, when set, equals
the context's working directory joined with the fixed executable name. -/
theorem C6_executable_path_invariant (cwd : String) (ctx : Context)
    (h : Reachable cwd ctx) :
    ctx.executable_path = none ∨
    ctx.executable_path = some (path_join ctx.source_dir EXECUTABLE_NAME) := by
  induction h with
  | init => exact Or.inl rfl
  | step fs sandbox act ctx hr ih =>
    rcases menu_step_ctx_cases fs cwd sandbox act ctx with
      heq | ⟨sd, sf, cp, heq⟩ | ⟨sd, heq⟩
    · rw [heq]; exact ih
    · rw [heq]; exact Or.inr rfl
    · rw [heq]; exact Or.inl rfl

/-- Witness for C6 at the context reached by one concrete compile step. -/
theorem C6_invariant_witness :
    ((menu_step fs0 "/home" sb0 (MenuAction.compileChoice 0 "-Wall")
        (initial_context "/home")).1.executable_path = none) ∨
    ((menu_step fs0 "/home" sb0 (MenuAction.compileChoice 0 "-Wall")
        (initial_context "/home")).1.executable_path
      = some (path_join
          (menu_step fs0 "/home" sb0 (MenuAction.compileChoice 0 "-Wall")
            (initial_context "/home")).1.source_dir EXECUTABLE_NAME)) :=
  C6_executable_path_invariant "/home" _
    (Reachable.step fs0 sb0 (MenuAction.compileChoice 0 "-Wall") _
      Reachable.init)

/-- C7: the valgrind argument vector carries `--leak-check=full` and
`--error-exitcode=1` before the executable name with the user's program
arguments appended after it, and the returned result — exit code included —
is exactly what the sandboxed valgrind invocation produced (so a detected
memory error's exit code 1 is reported even when the wrapped program itself
would have exited 0). -/
theorem C7_valgrind_invocation (sandbox : List String → ExecutionResult)
    (program_args : List String) (source_dir : String) :
    ((run_valgrind sandbox program_args source_dir).docker_cmd =
      ["docker", "run", "--rm",
       "-v", source_dir ++ ":" ++ WORKDIR_IN_CONTAINER,
       "-w", WORKDIR_IN_CONTAINER, DOCKER_IMAGE,
       "valgrind", "--leak-check=full", "--error-exitcode=1",
       "./" ++ EXECUTABLE_NAME] ++ program_args) ∧
    ((run_valgrind sandbox program_args source_dir).docker_cmd.get? 9
      = some "--leak-check=full") ∧
    ((run_valgrind sandbox program_args source_dir).docker_cmd.get? 10
      = some "--error-exitcode=1") ∧
    ((run_valgrind sandbox program_args source_dir).docker_cmd.get? 11
      = some ("./" ++ EXECUTABLE_NAME)) ∧
    ((run_valgrind sandbox program_args source_dir).result
      = sandbox (run_valgrind sandbox program_args source_dir).docker_cmd) :=
  ⟨rfl, rfl, rfl, rfl, rfl⟩

/-- C8: changing to an existing directory sets the working directory to its
absolute form and clears `source_file` and `executable_path` while keeping
the compiler field, issuing no invocation; a path that is not an existing
directory leaves the context entirely unchanged. -/
theorem C8_change_directory (fs : FS) (cwd : String)
    (sandbox : List String → ExecutionResult) (ctx : Context)
    (new_directory : String) :
    (fs.isdir new_directory = true →
      menu_step fs cwd sandbox (MenuAction.changeDir new_directory) ctx =
        ({ source_dir := abspath cwd new_directory
           source_file := none
           executable_path := none
           compiler := ctx.compiler }, [])) ∧
    (fs.isdir new_directory = false →
      menu_step fs cwd sandbox (MenuAction.changeDir new_directory) ctx
        = (ctx, [])) := by
  constructor
  · intro h; simp [menu_step, h]
  · intro h; simp [menu_step, h]

/-- Witness for C8 at a concrete existing and a concrete missing
directory. -/
theorem C8_change_directory_witness :
    (menu_step fs0 "/home" sb0 (MenuAction.changeDir "/data")
        (initial_context "/home") =
      ({ source_dir := abspath "/home" "/data"
         source_file := none
         executable_path := none
         compiler := (initial_context "/home").compiler }, [])) ∧
    (menu_step fsNoDir "/home" sb0 (MenuAction.changeDir "/nope")
        (initial_context "/home") = (initial_context "/home", [])) :=
  ⟨(C8_change_directory fs0 "/home" sb0 (initial_context "/home") "/data").1
      rfl,
   (C8_change_directory fsNoDir "/home" sb0 (initial_context "/home")
      "/nope").2 rfl⟩

/-- C9: the compile argument vector always has exactly 13 elements in the
fixed shape `docker run --rm -v mount -w workdir image compiler flags -o
executable filename`, and an empty flags string still occupies its own argv
slot. -/
theorem C9_compile_argv_shape (cwd f compile_flags comp : String)
    (ctx : Context) (sandbox : List String → ExecutionResult) :
    ((compile_program cwd ctx sandbox f compile_flags comp).docker_cmd =
      ["docker", "run", "--rm",
       "-v", dirname (abspath cwd f) ++ ":" ++ WORKDIR_IN_CONTAINER,
       "-w", WORKDIR_IN_CONTAINER, DOCKER_IMAGE,
       comp, compile_flags, "-o", EXECUTABLE_NAME,
       basename (abspath cwd f)]) ∧
    ((compile_program cwd ctx sandbox f compile_flags comp).docker_cmd.length
      = 13) ∧
    ((compile_program cwd ctx sandbox f "" comp).docker_cmd.get? 9 = some "") :=
  ⟨rfl, rfl, rfl⟩

/-- C10: `get_c_files` always returns a list — `[]` for a directory that
does not exist, and for an existing directory exactly the entries whose
names end in `.c` or `.cpp`. -/
theorem C10_get_c_files_total (fs : FS) (directory : String) :
    (fs.listdir directory = none → get_c_files fs directory = []) ∧
    (∀ entries, fs.listdir directory = some entries →
      get_c_files fs directory =
        entries.filter
          (fun file => endswith file ".c" || endswith file ".cpp")) := by
  constructor
  · intro h; simp [get_c_files, h]
  · intro entries h; simp [get_c_files, h]

/-- Witness for C10 at a missing directory and a one-file directory. -/
theorem C10_get_c_files_witness :
    get_c_files fsNoDir "/nope" = [] ∧
    get_c_files fs0 "/home" =
      (["a.c"]).filter
        (fun file => endswith file ".c" || endswith file ".cpp") :=
  ⟨(C10_get_c_files_total fsNoDir "/nope").1 rfl,
   (C10_get_c_files_total fs0 "/home").2 ["a.c"] rfl⟩

end Compiler
